import Mathlib

/-!
Verification of the AI-video backend (src/main.py): a FastAPI app with three
endpoints over a MongoDB-style document store.

The embedding models one collection ("video") as a list of documents in
insertion order; the process-wide connection `db` is `Option Store` (`none`
when the database is unavailable).  Each handler is a pure function from the
database state (plus its request payload) to a pair of (response or HTTP
error, new database state).  Store-assigned ObjectIds are modelled as their
24-character lowercase hex strings; the freshly assigned identifier of an
insert is passed in as an explicit argument.

`database.py` (create_document, get_documents, db) and `schemas.py` (Video)
are imported by main.py but are not part of the sources; those two helpers
are modelled from the specification's Document Store Adapter contract and
are marked as such below.
-/

namespace AIVideoBackend

/-- An HTTP error response, as raised by `HTTPException(status_code, detail)`. -/
structure HTTPError where
  status_code : Nat
  detail : String
deriving DecidableEq, Repr

/-- The `schemas.Video` pydantic model as constructed in main.py:
`Video(prompt=..., preview_image_url=..., status=...)`, with `video_url`
an optional field that is omitted (None) at creation. -/
structure Video where
  prompt : String
  preview_image_url : String
  status : String
  video_url : Option String
deriving DecidableEq, Repr

/-- A document of the "video" collection: the stored fields together with the
store-assigned `_id` (modelled as its hex string, called `oid` here). -/
structure VideoDoc where
  oid : String
  prompt : String
  preview_image_url : String
  status : String
  video_url : Option String
deriving DecidableEq, Repr

/-- The "video" collection, in insertion order. -/
abbrev Store := List VideoDoc

/-- A document as returned to the client by start_video and list_videos:
`doc["id"] = str(doc.pop("_id"))` renames the store identifier to `id`. -/
structure VideoOut where
  id : String
  prompt : String
  preview_image_url : String
  status : String
  video_url : Option String
deriving DecidableEq, Repr

/-- The response body of generate_preview:
`{"id": inserted_id, "preview_image_url": placeholder, "status": "preview"}`. -/
structure PreviewResponse where
  id : String
  preview_image_url : String
  status : String
deriving DecidableEq, Repr

/-- `doc["id"] = str(doc.pop("_id"))` in start_video and list_videos. -/
def renameId (d : VideoDoc) : VideoOut :=
  ⟨d.oid, d.prompt, d.preview_image_url, d.status, d.video_url⟩

/-- Whitespace for Python's `str.strip()`: exactly the code points for which
`str.isspace()` holds (0x09-0x0d, 0x1c-0x1f, space, NEL 0x85, NBSP 0xa0,
Ogham space 0x1680, the Zs spaces 0x2000-0x200a, the line and paragraph
separators 0x2028/0x2029, 0x202f, 0x205f and the ideographic space 0x3000). -/
def isPySpace (c : Char) : Bool :=
  (0x09 ≤ c.toNat && c.toNat ≤ 0x0d) || c.toNat = 0x20 ||
  (0x1c ≤ c.toNat && c.toNat ≤ 0x1f) || c.toNat = 0x85 || c.toNat = 0xa0 ||
  c.toNat = 0x1680 || (0x2000 ≤ c.toNat && c.toNat ≤ 0x200a) ||
  c.toNat = 0x2028 || c.toNat = 0x2029 || c.toNat = 0x202f ||
  c.toNat = 0x205f || c.toNat = 0x3000

/-- Python's `s.strip()`: remove leading and trailing whitespace. -/
def pyStrip (s : String) : String :=
  ⟨((s.data.dropWhile isPySpace).reverse.dropWhile isPySpace).reverse⟩

/-- Hex digits accepted by `bson.ObjectId` for a string argument. -/
def isHexChar (c : Char) : Bool :=
  ('0' ≤ c && c ≤ '9') || ('a' ≤ c && c ≤ 'f') || ('A' ≤ c && c ≤ 'F')

/-- Lower-case a hex digit (ObjectId normalises its hex representation). -/
def hexLower (c : Char) : Char :=
  if 'A' ≤ c && c ≤ 'F' then Char.ofNat (c.toNat + 32) else c

/-- `ObjectId(vid)` applied to a string: succeeds exactly on 24-character hex
strings, producing the normalised (lowercase) identifier; any other string
raises `InvalidId`, caught in start_video as a 400. -/
def parseObjectId (s : String) : Option String :=
  if s.data.length = 24 && s.data.all isHexChar then some ⟨s.data.map hexLower⟩
  else none

/-- `db["video"].find_one({"_id": oid})`: the first document whose `_id`
matches (at most one exists, since the store assigns unique ids). -/
def find_one (store : Store) (oid : String) : Option VideoDoc :=
  match store with
  | [] => none
  | d :: rest => if d.oid = oid then some d else find_one rest oid

/-- `db["video"].update_one({"_id": oid}, {"$set": ...})`: merge the update
into the first matching document; no-op when no document matches. -/
def update_one (store : Store) (oid : String) (f : VideoDoc → VideoDoc) : Store :=
  match store with
  | [] => []
  | d :: rest => if d.oid = oid then f d :: rest else d :: update_one rest oid f

/-- The fixed public sample URL assigned by start_video (main.py line 74). -/
def sample_video : String :=
  "https://sample-videos.com/video321/mp4/720/big_buck_bunny_720p_1mb.mp4"

/-- The `$set` document of start_video:
`{"status": "ready", "video_url": sample_video}`. -/
def setReady (d : VideoDoc) : VideoDoc :=
  ⟨d.oid, d.prompt, d.preview_image_url, "ready", some sample_video⟩

/-- Modelled from the spec: the Document Store Adapter's
`insert(collection, document) -> id` — "inserts a semi-structured record;
returns the newly assigned identifier. Fails with StoreUnavailable if no live
connection exists."  `database.create_document` is not under src; `newId` is
the identifier the store assigns to the inserted document. -/
def create_document (db : Option Store) (newId : String) (v : Video) :
    Except HTTPError (String × Store) :=
  match db with
  | none => Except.error ⟨500, "Database not available"⟩
  | some store =>
      Except.ok (newId, store ++ [⟨newId, v.prompt, v.preview_image_url, v.status, v.video_url⟩])

/-- Modelled from the spec: the Document Store Adapter's
`find(collection, filter, limit)` — "returns up to limit matching documents,
each with its assigned identifier attached", in store-native (insertion)
order.  `database.get_documents` is not under src; main.py calls it with the
empty filter `{}`, which matches every document. -/
def get_documents (store : Store) (limit : Nat) : List VideoDoc :=
  store.take limit

/-- main.py line 40: `text = (prompt[:40] + "...") if len(prompt) > 40 else prompt`. -/
def previewDisplayText (prompt : String) : String :=
  if prompt.data.length > 40 then ⟨prompt.data.take 40⟩ ++ "..." else prompt

/-- main.py line 41: the f-string
`"https://dummyimage.com/1024x576/111827/ffffff&text=" + text.replace(' ', '+')`. -/
def placeholderUrl (prompt : String) : String :=
  "https://dummyimage.com/1024x576/111827/ffffff&text=" ++
    ⟨(previewDisplayText prompt).data.map fun c => if c = ' ' then '+' else c⟩

/-- `POST /api/generate-preview` (main.py lines 29-45).  `payloadPrompt` is the
request's `prompt` field; `newId` is the identifier the store would assign. -/
def generate_preview (db : Option Store) (newId : String) (payloadPrompt : String) :
    Except HTTPError PreviewResponse × Option Store :=
  let prompt := pyStrip payloadPrompt
  if prompt = "" then (Except.error ⟨400, "Prompt is required"⟩, db)
  else
    let placeholder := placeholderUrl prompt
    match create_document db newId ⟨prompt, placeholder, "preview", none⟩ with
    | Except.error e => (Except.error e, db)
    | Except.ok (inserted_id, store2) =>
        (Except.ok ⟨inserted_id, placeholder, "preview"⟩, some store2)

/-- `POST /api/start-video` (main.py lines 50-83).  `vid` is the request's
`video_id` field. -/
def start_video (db : Option Store) (vid : String) :
    Except HTTPError VideoOut × Option Store :=
  if vid = "" then (Except.error ⟨400, "video_id is required"⟩, db)
  else
    match db with
    | none => (Except.error ⟨500, "Database not available"⟩, none)
    | some store =>
        match parseObjectId vid with
        | none => (Except.error ⟨400, "Invalid video_id"⟩, some store)
        | some pid =>
            match find_one store pid with
            | none => (Except.error ⟨404, "Video not found"⟩, some store)
            | some _ =>
                let store2 := update_one store pid setReady
                match find_one store2 pid with
                | some updated => (Except.ok (renameId updated), some store2)
                | none =>
                    -- Unreachable (the updated document still matches pid); in the
                    -- source this path would raise on `updated.pop`, a 500.
                    (Except.error ⟨500, "Internal Server Error"⟩, some store2)

/-- `GET /api/videos` (main.py lines 85-92). -/
def list_videos (db : Option Store) (limit : Nat) :
    Except HTTPError (List VideoOut) × Option Store :=
  match db with
  | none => (Except.error ⟨500, "Database not available"⟩, none)
  | some store => (Except.ok ((get_documents store limit).map renameId), some store)

/-- The handler's declared default `limit: int = 50`. -/
def default_limit : Nat := 50

/-- list_videos as invoked without an explicit `limit` query parameter. -/
def list_videos_default (db : Option Store) :
    Except HTTPError (List VideoOut) × Option Store :=
  list_videos db default_limit

/-- One request handled against the database state (only the resulting state). -/
inductive Step : Option Store → Option Store → Prop
  | create (db : Option Store) (newId payloadPrompt : String) :
      Step db (generate_preview db newId payloadPrompt).2
  | start (db : Option Store) (vid : String) :
      Step db (start_video db vid).2
  | list (db : Option Store) (limit : Nat) :
      Step db (list_videos db limit).2

/-- Database states reachable from an empty collection by any sequence of the
three operations. -/
inductive Reachable : Option Store → Prop
  | init : Reachable (some [])
  | step {db db2 : Option Store} : Reachable db → Step db db2 → Reachable db2

/-- Every stored document is either a freshly created preview (no video_url)
or a started video carrying the fixed sample URL. -/
def docOk (d : VideoDoc) : Prop :=
  (d.status = "preview" ∧ d.video_url = none) ∨
  (d.status = "ready" ∧ d.video_url = some sample_video)

/-- The collection invariant, trivially true when the database is down. -/
def storeOk : Option Store → Prop
  | none => True
  | some store => ∀ d ∈ store, docOk d

/-- A well-formed (24-character hex) store identifier for concrete instances. -/
def demoId : String := "0123456789abcdef01234567"

/-- A freshly created preview document under `demoId`. -/
def demoDoc : VideoDoc :=
  ⟨demoId, "a cat flying", placeholderUrl "a cat flying", "preview", none⟩

/-- The database state after one createPreview on the empty collection. -/
def dbAfterCreate : Option Store :=
  (generate_preview (some []) demoId "a cat flying").2

/-- The database state after that createPreview followed by startVideo. -/
def dbAfterStart : Option Store := (start_video dbAfterCreate demoId).2

/-- The started (ready) document under `demoId`. -/
def readyDemoDoc : VideoDoc :=
  ⟨demoId, "a cat flying", placeholderUrl "a cat flying", "ready", some sample_video⟩

/-- The database state after five createPreview requests on the empty collection. -/
def db5 : Option Store :=
  (generate_preview
    ((generate_preview
      ((generate_preview
        ((generate_preview
          ((generate_preview (some []) "000000000000000000000001" "p1").2)
          "000000000000000000000002" "p2").2)
        "000000000000000000000003" "p3").2)
      "000000000000000000000004" "p4").2)
    "000000000000000000000005" "p5").2

/-- The five preview documents of `db5`, listed explicitly. -/
def demoStore5 : Store :=
  [⟨"000000000000000000000001", "p1", placeholderUrl "p1", "preview", none⟩,
   ⟨"000000000000000000000002", "p2", placeholderUrl "p2", "preview", none⟩,
   ⟨"000000000000000000000003", "p3", placeholderUrl "p3", "preview", none⟩,
   ⟨"000000000000000000000004", "p4", placeholderUrl "p4", "preview", none⟩,
   ⟨"000000000000000000000005", "p5", placeholderUrl "p5", "preview", none⟩]

/-! ### Helper lemmas -/

theorem string_mk_eq_empty_iff (l : List Char) : String.mk l = "" ↔ l = [] := by
  constructor
  · intro h
    exact congrArg String.data h
  · intro h
    rw [h]

theorem dropWhile_all_iff (p : Char → Bool) (l : List Char) :
    (∀ x ∈ l.dropWhile p, p x) ↔ ∀ x ∈ l, p x := by
  constructor
  · intro h x hx
    rw [← List.takeWhile_append_dropWhile p l, List.mem_append] at hx
    rcases hx with hx | hx
    · exact List.mem_takeWhile_imp hx
    · exact h x hx
  · intro h x hx
    refine h x ?_
    rw [← List.takeWhile_append_dropWhile p l, List.mem_append]
    exact Or.inr hx

/-- `s.strip()` is empty exactly when every character of `s` is whitespace. -/
theorem pyStrip_eq_empty_iff (s : String) :
    pyStrip s = "" ↔ ∀ c ∈ s.data, isPySpace c := by
  unfold pyStrip
  rw [string_mk_eq_empty_iff, List.reverse_eq_nil_iff, List.dropWhile_eq_nil_iff]
  constructor
  · intro h
    rw [← dropWhile_all_iff isPySpace s.data]
    intro c hc
    exact h c (List.mem_reverse.mpr hc)
  · intro h c hc
    exact (dropWhile_all_iff isPySpace s.data).mpr h c (List.mem_reverse.mp hc)

/-- A found document carries the identifier it was looked up by. -/
theorem find_one_oid {store : Store} {oid : String} {d : VideoDoc}
    (h : find_one store oid = some d) : d.oid = oid := by
  induction store with
  | nil => simp [find_one] at h
  | cons d0 rest ih =>
    by_cases h0 : d0.oid = oid
    · simp [find_one, h0] at h
      rw [← h]
      exact h0
    · simp [find_one, h0] at h
      exact ih h

/-- Updating by an identifier does not change which identifiers are found:
the looked-up document is the updated one. -/
theorem find_one_update_one (store : Store) (oid : String) (f : VideoDoc → VideoDoc)
    (hf : ∀ d, (f d).oid = d.oid) :
    find_one (update_one store oid f) oid = (find_one store oid).map f := by
  induction store with
  | nil => rfl
  | cons d rest ih =>
    by_cases h0 : d.oid = oid
    · simp [update_one, find_one, h0, hf]
    · simp [update_one, find_one, h0, ih]

/-- Every document of an updated store is an old document or the image of one. -/
theorem mem_update_one {store : Store} {oid : String} {f : VideoDoc → VideoDoc}
    {d2 : VideoDoc} (h : d2 ∈ update_one store oid f) :
    d2 ∈ store ∨ ∃ d, d ∈ store ∧ d2 = f d := by
  induction store with
  | nil => simp [update_one] at h
  | cons d rest ih =>
    by_cases h0 : d.oid = oid
    · simp only [update_one, h0, if_pos, List.mem_cons] at h
      rcases h with h | h
      · exact Or.inr ⟨d, List.mem_cons_self d rest, h⟩
      · exact Or.inl (List.mem_cons_of_mem d h)
    · simp only [update_one, h0, if_neg, not_false_iff, List.mem_cons] at h
      rcases h with h | h
      · exact Or.inl (h ▸ List.mem_cons_self d rest)
      · rcases ih h with h2 | ⟨d0, hd0, hfd⟩
        · exact Or.inl (List.mem_cons_of_mem d h2)
        · exact Or.inr ⟨d0, List.mem_cons_of_mem d hd0, hfd⟩

/-- Position-wise, an update leaves each document alone or applies `f` to it. -/
theorem update_one_getElem (store : Store) (oid : String) (f : VideoDoc → VideoDoc)
    (i : Nat) :
    (update_one store oid f)[i]? = store[i]? ∨
    (update_one store oid f)[i]? = (store[i]?).map f := by
  induction store generalizing i with
  | nil => exact Or.inl rfl
  | cons d rest ih =>
    by_cases h0 : d.oid = oid
    · cases i with
      | zero => exact Or.inr (by simp [update_one, h0])
      | succ n => exact Or.inl (by simp [update_one, h0])
    · cases i with
      | zero => exact Or.inl (by simp [update_one, h0])
      | succ n =>
        rcases ih n with h | h
        · exact Or.inl (by simpa [update_one, h0] using h)
        · exact Or.inr (by simpa [update_one, h0] using h)

/-- Re-applying the start_video update is a no-op on the store. -/
theorem update_one_setReady_idem (store : Store) (oid : String) :
    update_one (update_one store oid setReady) oid setReady =
      update_one store oid setReady := by
  induction store with
  | nil => rfl
  | cons d rest ih =>
    by_cases h0 : d.oid = oid
    · have : (setReady d).oid = oid := h0
      simp [update_one, h0, this, setReady]
    · simp [update_one, h0, ih]

/-- A parsed ObjectId can only come from a (24-character) non-empty string. -/
theorem parseObjectId_ne_empty {vid pid : String} (h : parseObjectId vid = some pid) :
    vid ≠ "" := by
  intro hv
  rw [hv] at h
  simp [parseObjectId] at h

/-- Success path of start_video: with the database up, a well-formed identifier
and a matching document, the handler persists the `$set` update and returns the
updated document with `_id` renamed to `id`. -/
theorem start_video_ok (store : Store) (vid pid : String) (doc : VideoDoc)
    (hp : parseObjectId vid = some pid) (hfind : find_one store pid = some doc) :
    start_video (some store) vid =
      (Except.ok ⟨pid, doc.prompt, doc.preview_image_url, "ready", some sample_video⟩,
       some (update_one store pid setReady)) := by
  have hv : vid ≠ "" := parseObjectId_ne_empty hp
  have hoid : doc.oid = pid := find_one_oid hfind
  have hf2 : find_one (update_one store pid setReady) pid = some (setReady doc) := by
    rw [find_one_update_one store pid setReady (fun d => rfl), hfind]
    rfl
  unfold start_video
  rw [if_neg hv]
  simp only [hp, hfind, hf2]
  unfold renameId setReady
  simp [hoid]

/-- Success path of generate_preview: a prompt that is non-empty after
stripping is persisted as a preview document and echoed back. -/
theorem generate_preview_ok (store : Store) (newId p : String)
    (h : pyStrip p ≠ "") :
    generate_preview (some store) newId p =
      (Except.ok ⟨newId, placeholderUrl (pyStrip p), "preview"⟩,
       some (store ++ [⟨newId, pyStrip p, placeholderUrl (pyStrip p), "preview", none⟩])) := by
  unfold generate_preview create_document
  simp [h]

/-- generate_preview either leaves the database alone or appends one fresh
preview document. -/
theorem generate_preview_state (db : Option Store) (newId p : String) :
    (generate_preview db newId p).2 = db ∨
    ∃ store, db = some store ∧
      (generate_preview db newId p).2 =
        some (store ++ [⟨newId, pyStrip p, placeholderUrl (pyStrip p), "preview", none⟩]) := by
  by_cases h : pyStrip p = ""
  · left
    unfold generate_preview
    simp [h]
  · cases db with
    | none =>
      left
      unfold generate_preview create_document
      simp [h]
    | some store =>
      right
      exact ⟨store, rfl, by rw [generate_preview_ok store newId p h]⟩

/-- start_video either leaves the database alone or applies the `$set` update
to one identifier. -/
theorem start_video_state (db : Option Store) (vid : String) :
    (start_video db vid).2 = db ∨
    ∃ store pid, db = some store ∧
      (start_video db vid).2 = some (update_one store pid setReady) := by
  by_cases hv : vid = ""
  · left
    unfold start_video
    simp [hv]
  · cases db with
    | none =>
      left
      unfold start_video
      simp [hv]
    | some store =>
      cases hp : parseObjectId vid with
      | none =>
        left
        unfold start_video
        simp [hv, hp]
      | some pid =>
        cases hf : find_one store pid with
        | none =>
          left
          unfold start_video
          simp [hv, hp, hf]
        | some doc =>
          right
          refine ⟨store, pid, rfl, ?_⟩
          rw [start_video_ok store vid pid doc hp hf]

/-- list_videos never changes the database state. -/
theorem list_videos_state (db : Option Store) (limit : Nat) :
    (list_videos db limit).2 = db := by
  cases db <;> rfl

/-- One request preserves the collection invariant. -/
theorem storeOk_step {db db2 : Option Store} (hok : storeOk db) (hs : Step db db2) :
    storeOk db2 := by
  cases hs with
  | create newId p =>
    rcases generate_preview_state db newId p with h | ⟨store, hdb, h⟩
    · rw [h]
      exact hok
    · subst hdb
      rw [h]
      intro d hd
      rw [List.mem_append] at hd
      rcases hd with hd | hd
      · exact hok d hd
      · rw [List.mem_singleton] at hd
        rw [hd]
        exact Or.inl ⟨rfl, rfl⟩
  | start vid =>
    rcases start_video_state db vid with h | ⟨store, pid, hdb, h⟩
    · rw [h]
      exact hok
    · subst hdb
      rw [h]
      intro d hd
      rcases mem_update_one hd with hd2 | ⟨d0, hd0, hfd⟩
      · exact hok d hd2
      · rw [hfd]
        exact Or.inr ⟨rfl, rfl⟩
  | list limit =>
    rw [list_videos_state db limit]
    exact hok

/-- Every reachable database state satisfies the collection invariant. -/
theorem reachable_storeOk {db : Option Store} (h : Reachable db) : storeOk db := by
  induction h with
  | init => intro d hd; simp at hd
  | step _ hs ih => exact storeOk_step ih hs

/-- Position-wise, one request leaves each pre-existing document's status
alone or moves it from preview to ready. -/
theorem step_status {db db2 : Option Store} (hok : storeOk db) (hs : Step db db2)
    (store store2 : Store) (h1 : db = some store) (h2 : db2 = some store2)
    (i : Nat) (d d2 : VideoDoc) (hd : store[i]? = some d) (hd2 : store2[i]? = some d2) :
    d2.status = d.status ∨ (d.status = "preview" ∧ d2.status = "ready") := by
  subst h1
  have hmem : d ∈ store := List.getElem?_mem hd
  cases hs with
  | create newId p =>
    rcases generate_preview_state (some store) newId p with h | ⟨store0, hdb, h⟩
    · have hss : store = store2 := Option.some.inj ((h.symm.trans h2))
      subst hss
      rw [hd] at hd2
      left
      injection hd2 with hdd
      rw [hdd]
    · have hss : store = store0 := Option.some.inj hdb
      subst hss
      have hss2 : store ++ [⟨newId, pyStrip p, placeholderUrl (pyStrip p), "preview", none⟩] = store2 :=
        Option.some.inj (h.symm.trans h2)
      subst hss2
      have hi : i < store.length := (List.getElem?_eq_some.mp hd).1
      rw [List.getElem?_append_left hi, hd] at hd2
      left
      injection hd2 with hdd
      rw [hdd]
  | start vid =>
    rcases start_video_state (some store) vid with h | ⟨store0, pid, hdb, h⟩
    · have hss : store = store2 := Option.some.inj ((h.symm.trans h2))
      subst hss
      rw [hd] at hd2
      left
      injection hd2 with hdd
      rw [hdd]
    · have hss : store = store0 := Option.some.inj hdb
      subst hss
      have hss2 : update_one store pid setReady = store2 :=
        Option.some.inj (h.symm.trans h2)
      subst hss2
      rcases update_one_getElem store pid setReady i with hu | hu
      · rw [hu, hd] at hd2
        left
        injection hd2 with hdd
        rw [hdd]
      · rw [hu, hd] at hd2
        simp only [Option.map_some'] at hd2
        injection hd2 with hdd
        rcases hok d hmem with ⟨hp, _⟩ | ⟨hr, _⟩
        · right
          refine ⟨hp, ?_⟩
          rw [← hdd]
          rfl
        · left
          rw [← hdd, hr]
          rfl
  | list limit =>
    have h : (list_videos (some store) limit).2 = some store := list_videos_state (some store) limit
    have hss : store = store2 := Option.some.inj (h.symm.trans h2)
    subst hss
    rw [hd] at hd2
    left
    injection hd2 with hdd
    rw [hdd]

/-! ### Claim C5 -/

/-- Claim C5: createPreview fails with ValidationError (HTTP 400) for every
prompt that is empty or consists only of whitespace, and for every prompt
containing at least one non-whitespace character it does not fail with
ValidationError. -/
theorem createPreview_validation (db : Option Store) (newId p : String) :
    ((∀ c ∈ p.data, isPySpace c) →
        (generate_preview db newId p).1 = Except.error ⟨400, "Prompt is required"⟩) ∧
    ((∃ c ∈ p.data, isPySpace c = false) →
        ∀ e, (generate_preview db newId p).1 = Except.error e → e.status_code ≠ 400) := by
  constructor
  · intro hall
    have h : pyStrip p = "" := (pyStrip_eq_empty_iff p).mpr hall
    unfold generate_preview
    simp [h]
  · intro hex e he
    have h : pyStrip p ≠ "" := by
      rw [Ne, pyStrip_eq_empty_iff]
      intro hall
      rcases hex with ⟨c, hc, hcf⟩
      rw [hall c hc] at hcf
      exact absurd hcf (by decide)
    cases db with
    | none =>
      have h5 : (generate_preview none newId p).1 =
          Except.error ⟨500, "Database not available"⟩ := by
        unfold generate_preview create_document
        simp [h]
      rw [h5] at he
      injection he with hee
      rw [← hee]
      decide
    | some store =>
      rw [generate_preview_ok store newId p h] at he
      simp at he

/-- Witness for C5: `createPreview("")`, `createPreview("   ")` and
`createPreview("\xa0")` (a no-break space, whitespace to Python's strip)
all answer 400, and with a non-blank prompt the only possible failure is
the store (500). -/
theorem createPreview_validation_witness :
    (generate_preview (some []) demoId "").1 = Except.error ⟨400, "Prompt is required"⟩ ∧
    (generate_preview (some []) demoId "   ").1 = Except.error ⟨400, "Prompt is required"⟩ ∧
    (generate_preview (some []) demoId "\xa0").1 = Except.error ⟨400, "Prompt is required"⟩ ∧
    (500 : Nat) ≠ 400 :=
  ⟨(createPreview_validation (some []) demoId "").1 (by decide),
   (createPreview_validation (some []) demoId "   ").1 (by decide),
   (createPreview_validation (some []) demoId "\xa0").1 (by decide),
   (createPreview_validation none demoId "a").2 ⟨'a', by decide, by decide⟩
     ⟨500, "Database not available"⟩ rfl⟩

/-! ### Claim C1 -/

/-- Claim C1, counterexample: for the non-empty prompt "a " the claimed
derivation (applied to the prompt itself) gives display text "a+", but the
code strips the prompt first and produces display text "a". -/
theorem createPreview_url_cex :
    (generate_preview (some []) demoId "a ").1 =
      Except.ok ⟨demoId, "https://dummyimage.com/1024x576/111827/ffffff&text=a", "preview"⟩ ∧
    placeholderUrl "a " = "https://dummyimage.com/1024x576/111827/ffffff&text=a+" ∧
    ("https://dummyimage.com/1024x576/111827/ffffff&text=a" : String) ≠
      "https://dummyimage.com/1024x576/111827/ffffff&text=a+" :=
  ⟨rfl, rfl, by decide⟩

/-- Claim C1 (amended): the prompt is first stripped of leading and trailing
whitespace; for every prompt whose stripped form is non-empty, createPreview
derives preview_image_url deterministically from the stripped prompt: it is
truncated to 40 characters with an ellipsis marker appended if and only if it
is longer than 40 characters, spaces become '+', and the result is embedded as
display text in the fixed placeholder-image URL template. -/
theorem createPreview_url (store : Store) (newId p : String) (h : pyStrip p ≠ "") :
    (generate_preview (some store) newId p).1 =
      Except.ok ⟨newId, placeholderUrl (pyStrip p), "preview"⟩ ∧
    placeholderUrl (pyStrip p) =
      "https://dummyimage.com/1024x576/111827/ffffff&text=" ++
        ⟨(previewDisplayText (pyStrip p)).data.map fun c => if c = ' ' then '+' else c⟩ ∧
    ((pyStrip p).data.length > 40 →
        previewDisplayText (pyStrip p) = ⟨(pyStrip p).data.take 40⟩ ++ "...") ∧
    (¬ (pyStrip p).data.length > 40 → previewDisplayText (pyStrip p) = pyStrip p) := by
  refine ⟨?_, rfl, ?_, ?_⟩
  · rw [generate_preview_ok store newId p h]
  · intro hlong
    unfold previewDisplayText
    rw [if_pos hlong]
  · intro hshort
    unfold previewDisplayText
    rw [if_neg hshort]

/-- Witness for C1: the 21-character prompt "sunset over mountains" yields the
fixed template with display text sunset+over+mountains, and the prompt
"a\xa0" (trailing no-break space) is stripped to "a" before derivation, so
its display text is "a". -/
theorem createPreview_url_witness :
    ("sunset over mountains" : String).data.length = 21 ∧
    (generate_preview (some []) demoId "sunset over mountains").1 =
      Except.ok ⟨demoId,
        "https://dummyimage.com/1024x576/111827/ffffff&text=sunset+over+mountains",
        "preview"⟩ ∧
    pyStrip "a\xa0" = "a" ∧
    (generate_preview (some []) demoId "a\xa0").1 =
      Except.ok ⟨demoId,
        "https://dummyimage.com/1024x576/111827/ffffff&text=a", "preview"⟩ :=
  ⟨by decide,
   (createPreview_url [] demoId "sunset over mountains" (by decide)).1,
   by decide,
   (createPreview_url [] demoId "a\xa0" (by decide)).1⟩

/-! ### Claim C8 -/

/-- Claim C8, counterexample: the prompts "   " and "\xa0" (a no-break space)
are non-empty, yet createPreview persists nothing and answers 400. -/
theorem createPreview_persists_cex :
    ("   " : String) ≠ "" ∧
    generate_preview (some []) demoId "   " =
      (Except.error ⟨400, "Prompt is required"⟩, some []) ∧
    ("\xa0" : String) ≠ "" ∧
    generate_preview (some []) demoId "\xa0" =
      (Except.error ⟨400, "Prompt is required"⟩, some []) :=
  ⟨by decide, rfl, by decide, rfl⟩

/-- Claim C8 (amended): for every prompt containing at least one
non-whitespace character (equivalently, whose stripped form is non-empty),
createPreview persists a new record with status "preview" and no video_url,
and returns the persisted record's assigned identifier, preview URL and
status as the response body. -/
theorem createPreview_persists (store : Store) (newId p : String)
    (h : pyStrip p ≠ "") :
    ∃ url,
      generate_preview (some store) newId p =
        (Except.ok ⟨newId, url, "preview"⟩,
         some (store ++ [⟨newId, pyStrip p, url, "preview", none⟩])) :=
  ⟨placeholderUrl (pyStrip p), generate_preview_ok store newId p h⟩

/-- Witness for C8: `createPreview("a cat flying")` persists one preview
document and echoes its identifier. -/
theorem createPreview_persists_witness :
    ∃ url,
      generate_preview (some []) demoId "a cat flying" =
        (Except.ok ⟨demoId, url, "preview"⟩,
         some ([] ++ [⟨demoId, pyStrip "a cat flying", url, "preview", none⟩])) :=
  createPreview_persists [] demoId "a cat flying" (by decide)

/-! ### Claim C2 -/

/-- Claim C2: for every identifier whose record exists, startVideo sets that
record's video_url to the fixed sample URL and its status to "ready",
persists the update, and returns the full updated record with the store
identifier renamed to an `id` field. -/
theorem startVideo_success (store : Store) (vid pid : String) (doc : VideoDoc)
    (hp : parseObjectId vid = some pid) (hfind : find_one store pid = some doc) :
    ∃ store2,
      start_video (some store) vid = (Except.ok (renameId (setReady doc)), some store2) ∧
      find_one store2 pid = some (setReady doc) ∧
      (setReady doc).status = "ready" ∧
      (setReady doc).video_url = some sample_video ∧
      (renameId (setReady doc)).id = pid := by
  have hoid : doc.oid = pid := find_one_oid hfind
  refine ⟨update_one store pid setReady, ?_, ?_, rfl, rfl, hoid⟩
  · rw [start_video_ok store vid pid doc hp hfind]
    simp [renameId, setReady, hoid]
  · rw [find_one_update_one store pid setReady (fun d => rfl), hfind]
    rfl

/-- Witness for C2 at a one-document store. -/
theorem startVideo_success_witness :
    ∃ store2,
      start_video (some [demoDoc]) demoId =
        (Except.ok (renameId (setReady demoDoc)), some store2) ∧
      find_one store2 demoId = some (setReady demoDoc) ∧
      (setReady demoDoc).status = "ready" ∧
      (setReady demoDoc).video_url = some sample_video ∧
      (renameId (setReady demoDoc)).id = demoId :=
  startVideo_success [demoDoc] demoId demoId demoDoc rfl rfl

/-! ### Claim C6 -/

/-- Claim C6: startVideo is idempotent on an existing record: both calls
succeed, the second returns the same record as the first, and the store state
after the second call equals the state after the first. -/
theorem startVideo_idempotent (store : Store) (vid pid : String) (doc : VideoDoc)
    (hp : parseObjectId vid = some pid) (hfind : find_one store pid = some doc) :
    ∃ out store1,
      start_video (some store) vid = (Except.ok out, some store1) ∧
      start_video (some store1) vid = (Except.ok out, some store1) ∧
      out.status = "ready" ∧ out.video_url = some sample_video := by
  have hoid : doc.oid = pid := find_one_oid hfind
  refine ⟨⟨pid, doc.prompt, doc.preview_image_url, "ready", some sample_video⟩,
    update_one store pid setReady, ?_, ?_, rfl, rfl⟩
  · rw [start_video_ok store vid pid doc hp hfind]
  · have hf1 : find_one (update_one store pid setReady) pid = some (setReady doc) := by
      rw [find_one_update_one store pid setReady (fun d => rfl), hfind]
      rfl
    rw [start_video_ok (update_one store pid setReady) vid pid (setReady doc) hp hf1,
      update_one_setReady_idem]
    rfl

/-- Witness for C6 at a one-document store. -/
theorem startVideo_idempotent_witness :
    ∃ out store1,
      start_video (some [demoDoc]) demoId = (Except.ok out, some store1) ∧
      start_video (some store1) demoId = (Except.ok out, some store1) ∧
      out.status = "ready" ∧ out.video_url = some sample_video :=
  startVideo_idempotent [demoDoc] demoId demoId demoDoc rfl rfl

/-! ### Claim C3 -/

/-- Claim C3, counterexample: a non-empty malformed identifier with no live
store connection yields StoreUnavailable (500), not ValidationError (400) as
the claim requires for every malformed identifier. -/
theorem startVideo_errors_cex :
    parseObjectId "not-a-valid-id!!" = none ∧
    start_video none "not-a-valid-id!!" =
      (Except.error ⟨500, "Database not available"⟩, none) ∧
    (start_video none "not-a-valid-id!!").1 ≠ Except.error ⟨400, "Invalid video_id"⟩ := by
  refine ⟨rfl, rfl, ?_⟩
  intro h
  have h5 : (start_video none "not-a-valid-id!!").1 =
      Except.error ⟨500, "Database not available"⟩ := rfl
  have h5e := h5.symm.trans h
  injection h5e with h3
  injection h3 with h4 _
  exact absurd h4 (by decide)

/-- Claim C3 (amended): startVideo's error outcomes follow its check order —
an empty videoId yields 400; otherwise, with no live store connection, 500;
otherwise a malformed identifier yields 400; otherwise a well-formed
identifier with no matching record yields 404; no error outcome other than
400, 404 and 500 is possible.  The store is unchanged in each case. -/
theorem startVideo_errors (db : Option Store) (vid : String) :
    (vid = "" → start_video db vid = (Except.error ⟨400, "video_id is required"⟩, db)) ∧
    (vid ≠ "" → db = none →
        start_video db vid = (Except.error ⟨500, "Database not available"⟩, none)) ∧
    (vid ≠ "" → parseObjectId vid = none → ∀ store, db = some store →
        start_video db vid = (Except.error ⟨400, "Invalid video_id"⟩, db)) ∧
    (∀ pid store, parseObjectId vid = some pid → db = some store →
        find_one store pid = none →
        start_video db vid = (Except.error ⟨404, "Video not found"⟩, db)) ∧
    (∀ e, (start_video db vid).1 = Except.error e →
        e.status_code = 400 ∨ e.status_code = 404 ∨ e.status_code = 500) := by
  refine ⟨?_, ?_, ?_, ?_, ?_⟩
  · intro hv
    unfold start_video
    simp [hv]
  · intro hv hdb
    subst hdb
    unfold start_video
    simp [hv]
  · intro hv hp store hdb
    subst hdb
    unfold start_video
    simp [hv, hp]
  · intro pid store hp hdb hf
    subst hdb
    have hv : vid ≠ "" := parseObjectId_ne_empty hp
    unfold start_video
    simp [hv, hp, hf]
  · intro e he
    by_cases hv : vid = ""
    · have h1 : start_video db vid = (Except.error ⟨400, "video_id is required"⟩, db) := by
        unfold start_video
        simp [hv]
      rw [h1] at he
      injection he with hee
      rw [← hee]
      exact Or.inl rfl
    · cases db with
      | none =>
        have h1 : start_video none vid = (Except.error ⟨500, "Database not available"⟩, none) := by
          unfold start_video
          simp [hv]
        rw [h1] at he
        injection he with hee
        rw [← hee]
        exact Or.inr (Or.inr rfl)
      | some store =>
        cases hp : parseObjectId vid with
        | none =>
          have h1 : start_video (some store) vid =
              (Except.error ⟨400, "Invalid video_id"⟩, some store) := by
            unfold start_video
            simp [hv, hp]
          rw [h1] at he
          injection he with hee
          rw [← hee]
          exact Or.inl rfl
        | some pid =>
          cases hf : find_one store pid with
          | none =>
            have h1 : start_video (some store) vid =
                (Except.error ⟨404, "Video not found"⟩, some store) := by
              unfold start_video
              simp [hv, hp, hf]
            rw [h1] at he
            injection he with hee
            rw [← hee]
            exact Or.inr (Or.inl rfl)
          | some doc =>
            rw [start_video_ok store vid pid doc hp hf] at he
            simp at he

/-- Witness for C3 (amended), exercising the four error outcomes. -/
theorem startVideo_errors_witness :
    start_video (some [demoDoc]) "" = (Except.error ⟨400, "video_id is required"⟩, some [demoDoc]) ∧
    start_video none "abc" = (Except.error ⟨500, "Database not available"⟩, none) ∧
    start_video (some [demoDoc]) "abc" = (Except.error ⟨400, "Invalid video_id"⟩, some [demoDoc]) ∧
    start_video (some []) demoId = (Except.error ⟨404, "Video not found"⟩, some []) :=
  ⟨(startVideo_errors (some [demoDoc]) "").1 rfl,
   (startVideo_errors none "abc").2.1 (by decide) rfl,
   (startVideo_errors (some [demoDoc]) "abc").2.2.1 (by decide) rfl [demoDoc] rfl,
   (startVideo_errors (some []) demoId).2.2.2.1 demoId [] rfl rfl rfl⟩

/-! ### Claim C10 -/

/-- Claim C10: the error checks of startVideo are ordered — empty videoId is
checked before store availability, and store availability before identifier
well-formedness: startVideo("") answers 400 even with no store connection,
while a non-empty malformed videoId with no store connection answers 500,
not 400. -/
theorem startVideo_check_order (vid : String) :
    (∀ db, (start_video db "").1 = Except.error ⟨400, "video_id is required"⟩) ∧
    (vid ≠ "" → (start_video none vid).1 = Except.error ⟨500, "Database not available"⟩) ∧
    (vid ≠ "" → parseObjectId vid = none →
        (start_video none vid).1 ≠ Except.error ⟨400, "Invalid video_id"⟩) := by
  refine ⟨?_, ?_, ?_⟩
  · intro db
    unfold start_video
    simp
  · intro hv
    unfold start_video
    simp [hv]
  · intro hv _
    unfold start_video
    simp [hv]

/-- Witness for C10 at the malformed identifier "zz!". -/
theorem startVideo_check_order_witness :
    (start_video none "").1 = Except.error ⟨400, "video_id is required"⟩ ∧
    (start_video none "zz!").1 = Except.error ⟨500, "Database not available"⟩ ∧
    (start_video none "zz!").1 ≠ Except.error ⟨400, "Invalid video_id"⟩ :=
  ⟨(startVideo_check_order "zz!").1 none,
   (startVideo_check_order "zz!").2.1 (by decide),
   (startVideo_check_order "zz!").2.2 (by decide) rfl⟩

/-! ### Claim C7 -/

/-- Claim C7: listVideos(limit) returns the first `limit` records unfiltered
(hence at most `limit` of them), each carrying its store identifier as an
`id` field, and the declared default for `limit` is 50. -/
theorem listVideos_spec (store : Store) (limit : Nat) :
    (list_videos (some store) limit).1 = Except.ok ((store.take limit).map renameId) ∧
    (∀ out, (list_videos (some store) limit).1 = Except.ok out →
        out.length ≤ limit ∧
        out.map (fun r => r.id) = (store.take limit).map (fun d => d.oid)) ∧
    list_videos_default (some store) = list_videos (some store) 50 := by
  refine ⟨rfl, ?_, rfl⟩
  intro out hout
  have heq : (Except.ok ((store.take limit).map renameId) : Except HTTPError (List VideoOut)) =
      Except.ok out := by
    rw [← hout]
    rfl
  have hoeq : (store.take limit).map renameId = out := by injection heq
  subst hoeq
  constructor
  · rw [List.length_map, List.length_take]
    exact Nat.min_le_left _ _
  · rw [List.map_map]
    rfl

/-- Witness for C7: after creating five records, listVideos(2) returns
exactly two records, each carrying an `id` field equal to its store
identifier. -/
theorem listVideos_spec_witness :
    db5 = some demoStore5 ∧
    ((demoStore5.take 2).map renameId).length ≤ 2 ∧
    ((demoStore5.take 2).map renameId).map (fun r => r.id) =
      (demoStore5.take 2).map (fun d => d.oid) ∧
    ((demoStore5.take 2).map renameId).length = 2 :=
  ⟨rfl,
   ((listVideos_spec demoStore5 2).2.1 ((demoStore5.take 2).map renameId) rfl).1,
   ((listVideos_spec demoStore5 2).2.1 ((demoStore5.take 2).map renameId) rfl).2,
   rfl⟩

/-! ### Claim C9 -/

/-- Claim C9: each of the three operations is atomic — whenever one of them
answers an error, the database state is unchanged. -/
theorem operations_atomic (db : Option Store) :
    (∀ newId p e, (generate_preview db newId p).1 = Except.error e →
        (generate_preview db newId p).2 = db) ∧
    (∀ vid e, (start_video db vid).1 = Except.error e → (start_video db vid).2 = db) ∧
    (∀ limit e, (list_videos db limit).1 = Except.error e → (list_videos db limit).2 = db) := by
  refine ⟨?_, ?_, ?_⟩
  · intro newId p e he
    by_cases h : pyStrip p = ""
    · unfold generate_preview
      simp [h]
    · cases db with
      | none =>
        unfold generate_preview create_document
        simp [h]
      | some store =>
        rw [generate_preview_ok store newId p h] at he
        simp at he
  · intro vid e he
    by_cases hv : vid = ""
    · unfold start_video
      simp [hv]
    · cases db with
      | none =>
        unfold start_video
        simp [hv]
      | some store =>
        cases hp : parseObjectId vid with
        | none =>
          unfold start_video
          simp [hv, hp]
        | some pid =>
          cases hf : find_one store pid with
          | none =>
            unfold start_video
            simp [hv, hp, hf]
          | some doc =>
            rw [start_video_ok store vid pid doc hp hf] at he
            simp at he
  · intro limit e he
    cases db with
    | none => rfl
    | some store => simp [list_videos] at he

/-- Witness for C9: a failed startVideo and a failed createPreview leave the
store exactly as it was. -/
theorem operations_atomic_witness :
    (start_video (some [demoDoc]) "zz").2 = some [demoDoc] ∧
    (generate_preview (some []) demoId "   ").2 = some [] :=
  ⟨(operations_atomic (some [demoDoc])).2.1 "zz" ⟨400, "Invalid video_id"⟩ rfl,
   (operations_atomic (some [])).1 demoId "   " ⟨400, "Prompt is required"⟩ rfl⟩

/-! ### Claim C4 -/

/-- Claim C4: in every database state reachable by createPreview, startVideo
and listVideos, every record's status is "preview" or "ready"; video_url is
absent while the status is "preview" and present and non-empty once it is
"ready"; and a single operation never changes a record's status except from
"preview" to "ready". -/
theorem video_record_invariants (db : Option Store) (hR : Reachable db) :
    (∀ store, db = some store → ∀ d ∈ store,
        (d.status = "preview" ∨ d.status = "ready") ∧
        (d.status = "preview" → d.video_url = none) ∧
        (d.status = "ready" → ∃ u, d.video_url = some u ∧ u ≠ "")) ∧
    (∀ db2, Step db db2 → ∀ store store2, db = some store → db2 = some store2 →
        ∀ (i : Nat) (d d2 : VideoDoc), store[i]? = some d → store2[i]? = some d2 →
          d2.status = d.status ∨ (d.status = "preview" ∧ d2.status = "ready")) := by
  have hok := reachable_storeOk hR
  constructor
  · intro store hdb d hd
    subst hdb
    rcases hok d hd with ⟨hp, hu⟩ | ⟨hr, hu⟩
    · refine ⟨Or.inl hp, fun _ => hu, fun hc => absurd (hp.symm.trans hc) (by decide)⟩
    · refine ⟨Or.inr hr, fun hc => absurd (hr.symm.trans hc) (by decide),
        fun _ => ⟨sample_video, hu, by decide⟩⟩
  · intro db2 hs store store2 h1 h2 i d d2 hd hd2
    exact step_status hok hs store store2 h1 h2 i d d2 hd hd2

/-- Witness for C4: the state reached by createPreview("a cat flying") then
startVideo holds one record, which satisfies the invariant. -/
theorem video_record_invariants_witness :
    (readyDemoDoc.status = "preview" ∨ readyDemoDoc.status = "ready") ∧
    (readyDemoDoc.status = "preview" → readyDemoDoc.video_url = none) ∧
    (readyDemoDoc.status = "ready" → ∃ u, readyDemoDoc.video_url = some u ∧ u ≠ "") :=
  (video_record_invariants dbAfterStart
      (Reachable.step
        (Reachable.step Reachable.init (Step.create (some []) demoId "a cat flying"))
        (Step.start dbAfterCreate demoId))).1
    [readyDemoDoc] rfl readyDemoDoc (List.mem_singleton_self readyDemoDoc)

end AIVideoBackend
